import Mathlib

/-!
Verification of the deployment descriptor and launcher in
`serve_streamlit.py` (memextech/streamlit_modal_app).

The script is a Modal deployment file: at module-evaluation time it checks
that `app.py` exists next to the descriptor, builds a container image
specification (base image, pinned pip requirement strings, one embedded
local file), registers one app and one web-server function, and defines an
entry point `run` that spawns
`streamlit run <shell-quoted remote path> <fixed flags>` as a detached
process.  We embed each of those pieces as executable Lean definitions and
prove the specified properties about them.
-/

namespace ServeStreamlit

/-! ### Characters used by the quoting logic

Written via `Char.ofNat` where a literal would be awkward:
39 is the single-quote character, 34 the double quote, 92 the backslash,
96 the backtick, 123 and 125 the curly braces. -/

def sq : Char := Char.ofNat 39

def dq : Char := Char.ofNat 34

def bslash : Char := Char.ofNat 92

def btick : Char := Char.ofNat 96

/-! ### `shlex.quote`

Faithful embedding of CPython `shlex.quote`: a character is safe when it
matches `\w` under `re.ASCII` (that is, `[A-Za-z0-9_]`) or is one of
at-sign, percent, plus, equals, colon, comma, dot, slash, hyphen; every
other character is unsafe.  An empty string becomes two single quotes,
a string of only safe characters is returned unchanged, and anything else
is wrapped in single quotes with every embedded single quote replaced by
the five-character sequence quote, double-quote, quote, double-quote,
quote (Python's `s.replace("'", "'\"'\"'")`). -/

def isSafeChar (c : Char) : Bool :=
  c.isAlphanum || c = '_' || c = '@' || c = '%' || c = '+' || c = '=' ||
    c = ':' || c = ',' || c = '.' || c = '/' || c = '-'

def escSq : List Char → List Char
  | [] => []
  | c :: cs =>
    if c = sq then sq :: dq :: sq :: dq :: sq :: escSq cs
    else c :: escSq cs

def shlexQuote (s : String) : String :=
  if s.data.isEmpty then String.mk [sq, sq]
  else if s.data.all isSafeChar then s
  else String.mk (sq :: (escSq s.data ++ [sq]))

/-! ### A POSIX shell word reader

Used to state what "safely quoted" means: a list of characters is a safe
single shell word with value `v` when this reader consumes it completely
and yields `v`.  The reader accepts single-quoted spans (everything
literal up to the closing quote), double-quoted spans (rejecting the
characters that the shell treats specially inside double quotes: dollar,
backtick, backslash), and unquoted characters that are not shell
metacharacters.  Succeeding means the word parses as exactly one token
whose value is the returned string: no command substitution, no word
splitting, no syntax error. -/

def shellSpecialChars : List Char :=
  ['|', '&', ';', '<', '>', '(', ')', '$', btick, bslash, dq, sq, ' ',
    Char.ofNat 9, Char.ofNat 10, '*', '?', '[', '#', '~',
    Char.ofNat 123, Char.ofNat 125, '!']

def isShellSpecial (c : Char) : Bool := shellSpecialChars.contains c

inductive QMode where
  | plain
  | insideSingle
  | insideDouble
deriving DecidableEq

def parseWord : QMode → List Char → Option (List Char)
  | .plain, [] => some []
  | .plain, c :: rest =>
    if c = sq then parseWord .insideSingle rest
    else if c = dq then parseWord .insideDouble rest
    else if isShellSpecial c then none
    else (parseWord .plain rest).map (fun t => c :: t)
  | .insideSingle, [] => none
  | .insideSingle, c :: rest =>
    if c = sq then parseWord .plain rest
    else (parseWord .insideSingle rest).map (fun t => c :: t)
  | .insideDouble, [] => none
  | .insideDouble, c :: rest =>
    if c = dq then parseWord .plain rest
    else if c = '$' || c = btick || c = bslash then none
    else (parseWord .insideDouble rest).map (fun t => c :: t)

/-! ### The deployment descriptor

The module body of `serve_streamlit.py`: constants, the existence check on
the local `app.py`, the image specification, the app registration and the
web-server function registration. -/

def appFileName : String := "app.py"

def streamlit_script_remote_path : String := "/root/app.py"

def missingMsg : String :=
  "app.py not found! Place the script with your streamlit app in the same directory."

structure FileMapping where
  localPath : String
  remotePath : String
deriving DecidableEq, Repr

structure ImageSpec where
  baseImage : String
  pythonVersion : String
  uvPipPackages : List String
  addedLocalFiles : List FileMapping
deriving DecidableEq, Repr

structure AppSpec where
  name : String
  image : ImageSpec
deriving DecidableEq, Repr

structure WebServerFn where
  webServerPort : Nat
  maxInputs : Nat
deriving DecidableEq, Repr

structure ModuleState where
  apps : List AppSpec
  webServerFns : List WebServerFn
deriving DecidableEq, Repr

/-- Evaluating the module body.  The only fact about the outside world the
body consults is whether `app.py` exists next to the descriptor, passed in
as `localScriptExists`.  If it does not, the `RuntimeError` is raised
before the image or the app is constructed (modelled as `Except.error`
carrying the message); otherwise the image specification, the app and the
single web-server function registration are built. -/
def moduleEval (localScriptExists : Bool) : Except String ModuleState :=
  if localScriptExists = false then
    Except.error missingMsg
  else
    let image : ImageSpec :=
      { baseImage := "debian_slim"
        pythonVersion := "3.11"
        uvPipPackages := ["streamlit~=1.35.0", "numpy~=1.26.4", "pandas~=2.2.2"]
        addedLocalFiles := [⟨appFileName, streamlit_script_remote_path⟩] }
    Except.ok
      { apps := [⟨"streamlit-dashboard", image⟩]
        webServerFns := [⟨8000, 100⟩] }

/-! ### The entry point `run` -/

def cmdHead : String := "streamlit run "

def cmdFlags : String :=
  " --server.port 8000 --server.enableCORS=false --server.enableXsrfProtection=false --server.headless=true"

/-- The f-string of line 37: `streamlit run {target} --server.port 8000 ...`
with `target = shlex.quote(remotePath)`. -/
def buildCmd (remotePath : String) : String :=
  cmdHead ++ shlexQuote remotePath ++ cmdFlags

/-- The observable process actions the entry point could perform.
`popenShell cmd` is `subprocess.Popen(cmd, shell=True)` (a detached,
non-blocking spawn); `waitChild` and `pollChild` stand for the blocking
`Popen.wait` and polling `Popen.poll` calls, which `run` never makes. -/
inductive ProcAction where
  | popenShell (cmd : String)
  | waitChild
  | pollChild
deriving DecidableEq, Repr

/-- The body of `run`: quote the remote path, build the command, spawn it.
The trace lists every process-level action the function performs before
returning. -/
def run : List ProcAction :=
  [ProcAction.popenShell (buildCmd streamlit_script_remote_path)]

/-- The command string `run` builds, indexed by an invocation number.
The Python function takes no arguments and reads nothing per-invocation,
so the index is unused; it exists to state determinism across
invocations. -/
def runCmdAt (_invocation : Nat) : String :=
  buildCmd streamlit_script_remote_path

/-- `sub` occurs contiguously inside `hay`. -/
def strContains (hay sub : String) : Prop :=
  ∃ l r, hay.data = l ++ (sub.data ++ r)

/-- A process action that blocks on the child process (`Popen.wait`) or
polls it (`Popen.poll`). -/
def isBlockingAction : ProcAction → Bool
  | .waitChild => true
  | .pollChild => true
  | .popenShell _ => false

/-- Spec-side reading, kept separate from the code embedding for
comparison: an exact version pin in PEP 440 requirement syntax uses the
equality operator (the two-character operator, equals equals), which fixes
a single version and leaves nothing for the resolver to choose. -/
def specExactVersionPin (req : String) : Bool :=
  decide ("==".data <:+: req.data)

/-- A PEP 440 compatible-release constraint: the tilde-equals operator,
which bounds the version to a range and lets resolution pick the newest
release inside that range. -/
def compatibleReleaseConstraint (req : String) : Bool :=
  decide ("~=".data <:+: req.data)

/-! ## Supporting lemmas for the quoting round trip -/

lemma safeChar_not_special {c : Char} (h : isSafeChar c = true) :
    isShellSpecial c = false := by
  cases hb : isShellSpecial c
  · rfl
  · exfalso
    have hmem : c ∈ shellSpecialChars := by
      simpa [isShellSpecial] using hb
    have hall : ∀ x ∈ shellSpecialChars, isSafeChar x = false := by decide
    rw [hall c hmem] at h
    exact Bool.false_ne_true h

lemma safe_parse (cs : List Char) (h : cs.all isSafeChar = true) :
    parseWord QMode.plain cs = some cs := by
  induction cs with
  | nil => rfl
  | cons c cs ih =>
    rw [List.all_cons, Bool.and_eq_true] at h
    obtain ⟨hc, hcs⟩ := h
    have h1 : ¬ (c = sq) := by intro e; subst e; exact absurd hc (by decide)
    have h2 : ¬ (c = dq) := by intro e; subst e; exact absurd hc (by decide)
    have h3 : isShellSpecial c = false := safeChar_not_special hc
    simp [parseWord, h1, h2, h3, ih hcs]

lemma parse_esc_step (t : List Char) :
    parseWord QMode.insideSingle (sq :: dq :: sq :: dq :: sq :: t) =
      (parseWord QMode.insideSingle t).map (fun x => sq :: x) := rfl

lemma parse_single_esc (cs : List Char) :
    parseWord QMode.insideSingle (escSq cs ++ [sq]) = some cs := by
  induction cs with
  | nil => rfl
  | cons c cs ih =>
    by_cases hc : c = sq
    · subst hc
      rw [show escSq (sq :: cs) = sq :: dq :: sq :: dq :: sq :: escSq cs from rfl]
      simp [parse_esc_step, ih]
    · rw [show escSq (c :: cs) = c :: escSq cs from if_neg hc]
      simp [parseWord, hc, ih]

/-- Any string, after `shlex.quote`, reads back as exactly one shell word
whose value is the original string: no injection, no splitting, no
syntax error. -/
lemma shlexQuote_parses_back (s : String) :
    parseWord QMode.plain (shlexQuote s).data = some s.data := by
  by_cases h0 : s.data.isEmpty
  · have he : s.data = [] := by simpa using h0
    simp only [shlexQuote, h0, if_pos, he]
    rfl
  · by_cases hsafe : s.data.all isSafeChar
    · simp only [shlexQuote, h0, hsafe, Bool.false_eq_true, if_neg, if_pos,
        not_false_eq_true]
      exact safe_parse _ hsafe
    · simp only [shlexQuote, h0, hsafe, Bool.false_eq_true, if_neg, not_false_eq_true]
      show parseWord QMode.insideSingle (escSq s.data ++ [sq]) = some s.data
      exact parse_single_esc s.data

lemma buildCmd_data (p : String) :
    (buildCmd p).data = cmdHead.data ++ ((shlexQuote p).data ++ cmdFlags.data) := by
  simp [buildCmd, String.data_append, List.append_assoc]

lemma buildCmd_contains_flag {f : String} (p : String) (h : strContains cmdFlags f) :
    strContains (buildCmd p) f := by
  obtain ⟨l, r, hf⟩ := h
  exact ⟨cmdHead.data ++ ((shlexQuote p).data ++ l), r, by
    simp [buildCmd_data, hf, List.append_assoc]⟩

/-! ## The claims -/

/-- Claim C1: when the local `app.py` is present next to the descriptor,
module evaluation succeeds and the command string built by the entry point
`run` is exactly the literal
`streamlit run /root/app.py --server.port 8000 --server.enableCORS=false
--server.enableXsrfProtection=false --server.headless=true`; in
particular the shell-escaped form of the constant remote path
`/root/app.py` is the path itself. -/
theorem c1_command_is_literal :
    (moduleEval true).toOption.isSome = true ∧
    shlexQuote streamlit_script_remote_path = streamlit_script_remote_path ∧
    run = [ProcAction.popenShell
      "streamlit run /root/app.py --server.port 8000 --server.enableCORS=false --server.enableXsrfProtection=false --server.headless=true"] := by
  exact ⟨rfl, by decide, by decide⟩

/-- Claim C2: for every value of the remote script path, the generated
launch command consists of the fixed head, then exactly the
`shlex.quote` image of that path, then the fixed flags; and the quoted
path reads back as a single shell word whose value is the original path,
so the path can neither inject additional shell commands nor produce a
shell syntax error. -/
theorem c2_remote_path_always_quoted (p : String) :
    (buildCmd p).data = cmdHead.data ++ ((shlexQuote p).data ++ cmdFlags.data) ∧
    parseWord QMode.plain (shlexQuote p).data = some p.data :=
  ⟨buildCmd_data p, shlexQuote_parses_back p⟩

/-- Claim C3: when `app.py` is absent, module evaluation stops with the
fatal error whose message names the missing file `app.py`, and no module
state is produced — the image specification and the app registration are
never constructed, so no build or network call can be attempted. -/
theorem c3_missing_file_fatal :
    moduleEval false = Except.error missingMsg ∧
    strContains missingMsg appFileName ∧
    (moduleEval false).toOption = none := by
  refine ⟨rfl, ⟨[], ?_, ?_⟩, rfl⟩
  · exact (" not found! Place the script with your streamlit app in the same directory.").data
  · decide

/-- Claim C4: for every value of the remote script path, the generated
launch command contains each of the four literal flag substrings. -/
theorem c4_flags_always_present (p : String) :
    strContains (buildCmd p) "--server.port 8000" ∧
    strContains (buildCmd p) "--server.enableCORS=false" ∧
    strContains (buildCmd p) "--server.enableXsrfProtection=false" ∧
    strContains (buildCmd p) "--server.headless=true" := by
  refine ⟨buildCmd_contains_flag p ⟨" ".data,
      " --server.enableCORS=false --server.enableXsrfProtection=false --server.headless=true".data, by decide⟩,
    buildCmd_contains_flag p ⟨" --server.port 8000 ".data,
      " --server.enableXsrfProtection=false --server.headless=true".data, by decide⟩,
    buildCmd_contains_flag p ⟨" --server.port 8000 --server.enableCORS=false ".data,
      " --server.headless=true".data, by decide⟩,
    buildCmd_contains_flag p ⟨" --server.port 8000 --server.enableCORS=false --server.enableXsrfProtection=false ".data,
      "".data, by decide⟩⟩

/-- Claim C5: whenever the local `app.py` exists next to the descriptor,
module evaluation succeeds (no error raised) and the resulting image
specification embeds the local file at the remote destination path
`/root/app.py`. -/
theorem c5_descriptor_success (e : Bool) (h : e = true) :
    ∃ st, moduleEval e = Except.ok st ∧
      st.apps.map (fun a => a.image.addedLocalFiles) =
        [[⟨appFileName, streamlit_script_remote_path⟩]] ∧
      streamlit_script_remote_path = "/root/app.py" := by
  subst h
  exact ⟨_, rfl, rfl, rfl⟩

/-- Witness for claim C5 at the concrete input `true`. -/
theorem c5_witness :
    ∃ st, moduleEval true = Except.ok st ∧
      st.apps.map (fun a => a.image.addedLocalFiles) =
        [[⟨appFileName, streamlit_script_remote_path⟩]] ∧
      streamlit_script_remote_path = "/root/app.py" :=
  c5_descriptor_success true rfl

/-- Claim C6 counterexample: the image built at module evaluation carries
the requirement string `streamlit~=1.35.0`, which uses the PEP 440
compatible-release operator and not an exact equality pin; the resolver
may still pick any release in the allowed range (the newest one), so the
claim that exact dependency versions are pinned with no implicit
latest-version resolution fails on this concrete requirement. -/
theorem c6_counterexample :
    ∃ st, moduleEval true = Except.ok st ∧
      ∃ a, st.apps = [a] ∧
        a.image.uvPipPackages.head? = some "streamlit~=1.35.0" ∧
        specExactVersionPin "streamlit~=1.35.0" = false ∧
        compatibleReleaseConstraint "streamlit~=1.35.0" = true := by
  exact ⟨_, rfl, _, rfl, rfl, by decide, by decide⟩

/-- Claim C6 as amended: the image specification installs exactly three
packages — streamlit, numpy, pandas — each constrained by an explicit
compatible-release version range written in the descriptor; the ranges
bound every direct dependency but do not fix a single exact version. -/
theorem c6_amended_three_compatible_release :
    ∃ st, moduleEval true = Except.ok st ∧
      ∃ a, st.apps = [a] ∧
        a.image.uvPipPackages =
          ["streamlit~=1.35.0", "numpy~=1.26.4", "pandas~=2.2.2"] ∧
        a.image.uvPipPackages.length = 3 ∧
        a.image.uvPipPackages.all compatibleReleaseConstraint = true := by
  exact ⟨_, rfl, _, rfl, rfl, rfl, by decide⟩

/-- Claim C7: module evaluation registers exactly one named deployable
unit (the app `streamlit-dashboard`) and exactly one function exposed as a
web server, whose port is 8000 and whose declared maximum number of
concurrent inputs is 100. -/
theorem c7_single_app_single_webserver :
    ∃ st, moduleEval true = Except.ok st ∧
      st.apps.map AppSpec.name = ["streamlit-dashboard"] ∧
      st.webServerFns = [⟨8000, 100⟩] :=
  ⟨_, rfl, rfl, rfl⟩

/-- Claim C8: the entry point `run` performs exactly one process action, a
detached shell spawn of the launch command, and performs no blocking wait
or poll on the child before returning. -/
theorem c8_nonblocking_launch :
    run = [ProcAction.popenShell (buildCmd streamlit_script_remote_path)] ∧
    run.length = 1 ∧
    run.countP (fun a => isBlockingAction a) = 0 :=
  ⟨rfl, rfl, rfl⟩

/-- Claim C9: the entry point takes no inputs and is deterministic — any
two invocations build character-for-character identical launch command
strings, always the fixed command over the constant remote path. -/
theorem c9_deterministic (i j : Nat) :
    runCmdAt i = runCmdAt j ∧
    runCmdAt i = buildCmd streamlit_script_remote_path :=
  ⟨rfl, rfl⟩

/-- Claim C10: the remote destination path recorded in the image's
local-file mapping and the script path embedded (shell-escaped) in the
launch command are the same constant `/root/app.py`, so the command run at
container start targets exactly the file embedded at build time. -/
theorem c10_remote_path_consistency :
    ∃ st, moduleEval true = Except.ok st ∧
      st.apps.map (fun a => a.image.addedLocalFiles.map FileMapping.remotePath) =
        [[streamlit_script_remote_path]] ∧
      run = [ProcAction.popenShell (buildCmd streamlit_script_remote_path)] ∧
      strContains (buildCmd streamlit_script_remote_path) streamlit_script_remote_path ∧
      streamlit_script_remote_path = "/root/app.py" := by
  refine ⟨_, rfl, rfl, rfl, ⟨cmdHead.data, cmdFlags.data, by decide⟩, rfl⟩

end ServeStreamlit
